import Mathlib

/-!
Shallow embedding of tredictpy (src/tredict.py): the OAuth2 token lifecycle
(`TredictPy.is_authorised`, `is_user_access_token_valid`, `request_auth_code`,
`request_user_access_token`), the paginated list fetch (`_list_endpoint`),
callback parameter parsing (`_params_from_path`), the upload file-type
sniffing in `activity_upload`, and the sport-type enum checks of
`planned_training_list`, `capacity_download` and `zones_download`.

Modelling conventions:
* Python `str` values are `List Char`; Python `bytes` are `List Nat`.
* The persisted config dict (`self._config`) with its fixed mandatory keys is
  a structure; callback-parameter dicts are association lists in insertion
  order with Python overwrite-on-duplicate semantics.
* Raised exceptions are `Except` errors.  Methods that mutate and persist
  `self._config` via `_save_config` return the final config alongside the
  result, so that "config unchanged" is an expressible property: an error
  outcome pairs the untouched input config.
* `requests.post` / `requests.get` responses are passed in explicitly
  (a `TokenResponse` value, or a `fetch` oracle for the pagination loop).
* `int(time.time())` is the explicit `now : Int` argument.
-/

namespace Tredict

/-- Python `str` values, modelled as lists of characters. -/
abbrev PyStr := List Char

/-- Python `bytes` values, modelled as lists of byte values. -/
abbrev PyBytes := List Nat

/-- `RENEWAL_BUFFER = 60` from tredict.py. -/
def RENEWAL_BUFFER : Int := 60

/-- `AUTH_CODE_EXPIRES_IN = 600` from tredict.py. -/
def AUTH_CODE_EXPIRES_IN : Int := 600

/-- The `ERROR_CODES` status-to-description table from tredict.py. -/
def ERROR_CODES : List (Nat × String) :=
  [(200, "Request could be processed successfully"),
   (400, "The request is invalid or contains invalid data"),
   (401, "Invalid authorization header"),
   (403, "You provided an invalid access token. Maybe it is expired or it is out of scope"),
   (404, "Does not exist"),
   (429, "Too many requests."),
   (500, "Something went wrong on our side"),
   (503, "Sorry, we went to the pub")]

/-- `ERROR_CODES[status]` as a lookup; `none` is Python's `KeyError` case. -/
def errorDescription (status : Nat) : Option String :=
  (ERROR_CODES.find? (fun p => p.1 = status)).map (fun p => p.2)

deriving instance DecidableEq for Except

/-- The exceptions the embedded code can raise. -/
inductive PyErr where
  | apiException (msg : String)
  | keyError (key : String)
  | keyErrorStatus (status : Nat)
  | valueError
  | unicodeDecodeError
deriving DecidableEq

/-- Python `k in d.keys()` for an association-list dict. -/
def hasKey (d : List (PyStr × PyStr)) (k : PyStr) : Bool :=
  d.any (fun p => p.1 = k)

/-- Python `d[k]` for an association-list dict; `none` is the `KeyError` case. -/
def lookupKey (d : List (PyStr × PyStr)) (k : PyStr) : Option PyStr :=
  (d.find? (fun p => p.1 = k)).map (fun p => p.2)

/-- Python dict insertion: a duplicate key overwrites the stored value in
place, otherwise the pair is appended. -/
def dictInsert (d : List (PyStr × PyStr)) (kv : PyStr × PyStr) :
    List (PyStr × PyStr) :=
  if d.any (fun p => p.1 = kv.1) then
    d.map (fun p => if p.1 = kv.1 then (p.1, kv.2) else p)
  else d ++ [kv]

/-- The dict persisted under config key `"auth_code"`: the callback parameters
(`code`, `state`, ...) together with the added `"expires_on"` entry
(`params | {"expires_on": int(time.time() + AUTH_CODE_EXPIRES_IN)}`). -/
structure AuthCode where
  params : List (PyStr × PyStr)
  expires_on : Int
deriving DecidableEq

/-- The dict persisted under config key `"user_access_token"`: the token
endpoint's JSON response together with the added `"expires_on"` entry.
`refresh_token = none` models the server response omitting that key. -/
structure UserAccessToken where
  access_token : PyStr
  refresh_token : Option PyStr
  expires_on : Int
deriving DecidableEq

/-- The persisted config (`self._config`) with its three mandatory keys.
`none` is JSON `null`; for `personal_access_token` the stored value is a
string, whose Python truthiness is [`truthyStr`]. -/
structure Config where
  auth_code : Option AuthCode
  user_access_token : Option UserAccessToken
  personal_access_token : Option PyStr
deriving DecidableEq

/-- Python truthiness of an optional string: `None` and `""` are falsy. -/
def truthyStr : Option PyStr → Bool
  | none => false
  | some s => !s.isEmpty

/-- The JSON body and status of a response of the token endpoint
(`requests.post` in `request_user_access_token`). `refresh_token = none`
models the response omitting that key. -/
structure TokenResponse where
  status_code : Nat
  access_token : PyStr
  refresh_token : Option PyStr
  expires_in : Int
deriving DecidableEq

/-- Python `s.split(sep)` for a single-character separator: splits at every
occurrence and keeps empty pieces; `"".split(sep)` is `[""]`. -/
def splitOnChar (sep : Char) : List Char → List (List Char)
  | [] => [[]]
  | c :: rest =>
    let r := splitOnChar sep rest
    if c = sep then [] :: r
    else
      match r with
      | h :: t => (c :: h) :: t
      | [] => [[c]]

/-- `path[(path.index(sep) + 1):]` for a single-character `sep`: everything
after the first occurrence; `none` is the `ValueError` from `index` when the
character does not occur. -/
def afterFirstChar (sep : Char) : List Char → Option (List Char)
  | [] => none
  | c :: rest => if c = sep then some rest else afterFirstChar sep rest

/-- `dict(...)` accepts an element only if it is a pair; a 1-tuple or a
3-or-more-tuple (a piece with no `=` or several `=`) makes `dict` raise
`ValueError`. -/
def toPair : List PyStr → Option (PyStr × PyStr)
  | [k, v] => some (k, v)
  | _ => none

/-- `TredictPy._params_from_path`:
`dict([tuple(p.split("=")) for p in path[(path.index("?") + 1):].split("&")])`.
Each piece is split at every `"="` (not only the first); `dict` fails unless
every piece yields exactly a pair; duplicate keys are overwritten; values are
not URL-decoded anywhere. -/
def params_from_path (path : PyStr) : Except PyErr (List (PyStr × PyStr)) :=
  match afterFirstChar '?' path with
  | none => .error .valueError
  | some query =>
    let tuples := (splitOnChar '&' query).map (fun p => splitOnChar '=' p)
    match tuples.mapM toPair with
    | none => .error .valueError
    | some pairs => .ok (pairs.foldl dictInsert [])

/-- `TredictPy.is_authorised`. Raises when `self._with_personal_access_token`;
otherwise `False` iff any of `auth_code`, `user_access_token`,
`personal_access_token` is falsy (the stored dicts are falsy exactly when
`null`, since a saved dict always contains at least `expires_on`). -/
def is_authorised (withPAT : Bool) (cfg : Config) : Except PyErr Bool :=
  if withPAT then
    .error (.apiException "Cannot check validity when using a personal access token.")
  else if cfg.auth_code.isNone || cfg.user_access_token.isNone
      || !truthyStr cfg.personal_access_token then
    .ok false
  else
    .ok true

/-- `TredictPy.is_user_access_token_valid`: true iff the stored token is
truthy and `expires_on > int(time.time()) - RENEWAL_BUFFER`. -/
def is_user_access_token_valid (withPAT : Bool) (cfg : Config) (now : Int) :
    Except PyErr Bool :=
  if withPAT then
    .error (.apiException "Cannot check validity when using a personal access token.")
  else
    match cfg.user_access_token with
    | some t => if t.expires_on > now - RENEWAL_BUFFER then .ok true else .ok false
    | none => .ok false

/-- `TredictPy.request_auth_code` after the callback parameters `params` have
been captured, with the generated `state` uuid `user_uuid`.  On
`"code" in params.keys()` Python then evaluates `params["state"]` (a missing
`state` key raises `KeyError`); matching states persist
`params | {"expires_on": now + AUTH_CODE_EXPIRES_IN}` under `"auth_code"`;
differing states raise the state-mismatch `APIException`; a missing `code`
raises the generic-failure `APIException` (whose message embeds the dumped
params, elided here).  The returned config is the final persisted one. -/
def request_auth_code (withPAT : Bool) (cfg : Config) (now : Int)
    (user_uuid : PyStr) (params : List (PyStr × PyStr)) :
    Except PyErr Unit × Config :=
  if withPAT then
    (.error (.apiException "Cannot request a authorisation code when using a personal access token."),
     cfg)
  else if hasKey params "code".data then
    match lookupKey params "state".data with
    | none => (.error (.keyError "state"), cfg)
    | some st =>
      if st = user_uuid then
        (.ok (),
         { cfg with auth_code := some { params := params, expires_on := now + AUTH_CODE_EXPIRES_IN } })
      else
        (.error (.apiException "Authorisation failed! Returned state does not match supplied state."),
         cfg)
  else
    (.error (.apiException "Authorisation failed!"), cfg)

/-- The tail of `request_user_access_token` after its precondition guards: the
handling of the token endpoint's response.  On 200 the persisted token is
`r.json() | {"expires_on": int(time.time() + r.json()["expires_in"])}`, and
when refreshing its `refresh_token` entry is then overwritten with
`data["refresh_token"]` (the previously stored refresh token).  On non-200 the
`APIException` message interpolates `ERROR_CODES[r.status_code]`, so an
unknown status raises `KeyError` instead.  Only the 200 branch saves. -/
def token_exchange_result (cfg : Config) (now : Int) (refresh : Bool)
    (data_refresh_token : Option PyStr) (resp : TokenResponse) :
    Except PyErr Unit × Config :=
  if resp.status_code = 200 then
    let tok : UserAccessToken :=
      { access_token := resp.access_token
        refresh_token := resp.refresh_token
        expires_on := now + resp.expires_in }
    let tok := if refresh then { tok with refresh_token := data_refresh_token } else tok
    (.ok (), { cfg with user_access_token := some tok })
  else
    match errorDescription resp.status_code with
    | some desc =>
      (.error (.apiException ("Retrieving user access token failed error "
        ++ toString resp.status_code ++ " (" ++ desc ++ ").")), cfg)
    | none => (.error (.keyErrorStatus resp.status_code), cfg)

/-- `TredictPy.request_user_access_token`.  Guards in source order: the
personal-access-token mode check; for `refresh=False` a present, unexpired
auth code (`expires_on <= int(time.time() - RENEWAL_BUFFER)` is expired) and
the `data` dict's lookup `self._config["auth_code"]["code"]`; for
`refresh=True` a truthy stored token and the `data` dict's lookup
`self._config["user_access_token"]["refresh_token"]` (a `KeyError` when the
stored token has no such key).  Then the exchange via
[`token_exchange_result`]. -/
def request_user_access_token (withPAT : Bool) (cfg : Config) (now : Int)
    (refresh : Bool) (resp : TokenResponse) : Except PyErr Unit × Config :=
  if withPAT then
    (.error (.apiException "Cannot request a user access token when using a personal access token."),
     cfg)
  else if refresh then
    match cfg.user_access_token with
    | none =>
      (.error (.apiException "You must request a user access token with an authorisation code before you can refresh."),
       cfg)
    | some t =>
      match t.refresh_token with
      | none => (.error (.keyError "refresh_token"), cfg)
      | some rt => token_exchange_result cfg now true (some rt) resp
  else
    match cfg.auth_code with
    | none => (.error (.apiException "You must request an authorisation code first."), cfg)
    | some a =>
      if a.expires_on ≤ now - RENEWAL_BUFFER then
        (.error (.apiException "Authorisation code has expired."), cfg)
      else
        match lookupKey a.params "code".data with
        | none => (.error (.keyError "code"), cfg)
        | some _ => token_exchange_result cfg now false none resp

/-- One 200-or-error page of a list endpoint: the status, the sole collection
under `"_embedded"`, and `"_links"."next"."href"` when present. -/
structure PageResponse (Item : Type) where
  status_code : Nat
  embedded : List Item
  next : Option PyStr
deriving DecidableEq

/-- The `while True` loop of `TredictPy._list_endpoint`.  `fetch` stands for
`requests.get`; `trace` is a ghost log of every `(url, params)` request
issued; `fuel` bounds the source's unbounded loop, `none` meaning the bound
was hit.  On 200 the page's embedded collection is appended to `pages`; the
loop stops when the envelope has no `next` link, and otherwise follows
`next.href` with `params = None`. -/
def list_endpoint_loop {Item P : Type} (fetch : PyStr → Option P → PageResponse Item) :
    Nat → PyStr → Option P → List Item → List (PyStr × Option P) →
    Option (Except PyErr (List Item) × List (PyStr × Option P))
  | 0, _, _, _, _ => none
  | fuel + 1, url, params, pages, trace =>
    let r := fetch url params
    let trace := trace ++ [(url, params)]
    if r.status_code = 200 then
      let pages := pages ++ r.embedded
      match r.next with
      | none => some (.ok pages, trace)
      | some nextUrl => list_endpoint_loop fetch fuel nextUrl none pages trace
    else
      match errorDescription r.status_code with
      | some desc =>
        some (.error (.apiException ("Request failed error "
          ++ toString r.status_code ++ " (" ++ desc ++ ").")), trace)
      | none => some (.error (.keyErrorStatus r.status_code), trace)

/-- `TredictPy._list_endpoint`: the credential guard
(`not personal_access_token and not self.is_user_access_token_valid()`,
short-circuiting, with the inner call able to raise) followed by the
pagination loop starting at `url` with the caller's `params`. -/
def list_endpoint {Item P : Type} (withPAT : Bool) (cfg : Config) (now : Int)
    (fetch : PyStr → Option P → PageResponse Item) (fuel : Nat)
    (url : PyStr) (params : P) :
    Option (Except PyErr (List Item) × List (PyStr × Option P)) :=
  if truthyStr cfg.personal_access_token then
    list_endpoint_loop fetch fuel url (some params) [] []
  else
    match is_user_access_token_valid withPAT cfg now with
    | .error e => some (.error e, [])
    | .ok true => list_endpoint_loop fetch fuel url (some params) [] []
    | .ok false =>
      some (.error (.apiException "No personal access token and user access token not obtained or expired."),
            [])

/-- The allowed sport types `["running", "cycling", "swimming", "misc"]`. -/
def SPORT_TYPES : List PyStr :=
  ["running".data, "cycling".data, "swimming".data, "misc".data]

/-- Python `sport_type in ["running", "cycling", "swimming", "misc"]` for an
optional string argument: `None` is not in the list. -/
def sportTypeIn : Option PyStr → Bool
  | some s => SPORT_TYPES.any (fun t => t = s)
  | none => false

/-- Outcome of a sport-type enum check: the exception actually raised by it,
and the `sportType` value that proceeds into the request `params`. -/
structure SportCheckOutcome where
  raised : Option PyErr
  sportTypeSent : Option PyStr
deriving DecidableEq

/-- The sport-type check at the top of `TredictPy.planned_training_list`:
`if sport_type not in [...]: APIException(...)`.  The exception object is
constructed and immediately discarded — there is no `raise` — so on both
branches nothing is raised and control continues, sending the given
`sport_type` as the `sportType` request parameter. -/
def planned_training_list_sport_check (sport_type : Option PyStr) : SportCheckOutcome :=
  if !sportTypeIn sport_type then
    { raised := none, sportTypeSent := sport_type }
  else
    { raised := none, sportTypeSent := sport_type }

/-- The sport-type check of `TredictPy.capacity_download`, identical in source
to the one in `planned_training_list`: the `APIException` is constructed but
never raised. -/
def capacity_download_sport_check (sport_type : Option PyStr) : SportCheckOutcome :=
  if !sportTypeIn sport_type then
    { raised := none, sportTypeSent := sport_type }
  else
    { raised := none, sportTypeSent := sport_type }

/-- The sport-type check of `TredictPy.zones_download`, identical in source to
the one in `planned_training_list`: the `APIException` is constructed but
never raised. -/
def zones_download_sport_check (sport_type : Option PyStr) : SportCheckOutcome :=
  if !sportTypeIn sport_type then
    { raised := none, sportTypeSent := sport_type }
  else
    { raised := none, sportTypeSent := sport_type }

/-- A Python value that is either `bytes` or `str`, for Python's dynamically
typed `==`. -/
inductive PyVal where
  | bytes (b : PyBytes)
  | str (s : PyStr)
deriving DecidableEq

/-- Python `==` across `bytes` and `str`: values of different types are never
equal (`b"<?xml" == "<?xml"` is `False`). -/
def pyEq : PyVal → PyVal → Bool
  | .bytes a, .bytes b => a = b
  | .str a, .str b => a = b
  | _, _ => false

/-- `b < 0xC0 && 0x80 <= b`: a UTF-8 continuation byte. -/
def isCont (b : Nat) : Bool := 0x80 ≤ b && b < 0xC0

/-- Strict UTF-8 decoding of a byte list (Python `bytes.decode()`), rejecting
truncated sequences, overlong encodings, surrogates and out-of-range leads;
`none` is the `UnicodeDecodeError` case. -/
def utf8Decode : List Nat → Option (List Char)
  | [] => some []
  | b :: rest =>
    if b < 0x80 then
      match utf8Decode rest with
      | some cs => some (Char.ofNat b :: cs)
      | none => none
    else if b < 0xC2 then none
    else if b < 0xE0 then
      match rest with
      | b1 :: rest2 =>
        if isCont b1 then
          match utf8Decode rest2 with
          | some cs => some (Char.ofNat ((b - 0xC0) * 0x40 + (b1 - 0x80)) :: cs)
          | none => none
        else none
      | [] => none
    else if b < 0xF0 then
      match rest with
      | b1 :: b2 :: rest3 =>
        if isCont b1 && isCont b2 && (b ≠ 0xE0 || 0xA0 ≤ b1) && (b ≠ 0xED || b1 < 0xA0) then
          match utf8Decode rest3 with
          | some cs =>
            some (Char.ofNat ((b - 0xE0) * 0x1000 + (b1 - 0x80) * 0x40 + (b2 - 0x80)) :: cs)
          | none => none
        else none
      | _ => none
    else if b < 0xF5 then
      match rest with
      | b1 :: b2 :: b3 :: rest4 =>
        if isCont b1 && isCont b2 && isCont b3
            && (b ≠ 0xF0 || 0x90 ≤ b1) && (b ≠ 0xF4 || b1 < 0x90) then
          match utf8Decode rest4 with
          | some cs =>
            some (Char.ofNat ((b - 0xF0) * 0x40000 + (b1 - 0x80) * 0x1000
              + (b2 - 0x80) * 0x40 + (b3 - 0x80)) :: cs)
          | none => none
        else none
      | _ => none
    else none

/-- How `activity_upload` routes a file after sniffing. -/
inductive UploadRoute where
  | fit
  | tcx
  | unvalidated
deriving DecidableEq

/-- The file-type sniffing of `TredictPy.activity_upload` on the first 12
bytes read from the file.  `activity_file[8:12].decode() == ".FIT"` selects
FIT (an undecodable slice raises `UnicodeDecodeError`); the `elif` compares
the `bytes` value `activity_file[0:5]` with the `str` `"<?xml"`, which is
never true in Python; and the `else` branch constructs
`APIException(...)` without `raise`, so control falls through and the upload
proceeds with the file unvalidated (`file_type` is never used afterwards). -/
def activity_upload_sniff (activity_file : PyBytes) : Except PyErr UploadRoute :=
  match utf8Decode ((activity_file.drop 8).take 4) with
  | none => .error .unicodeDecodeError
  | some s =>
    if s = ".FIT".data then .ok .fit
    else if pyEq (.bytes (activity_file.take 5)) (.str "<?xml".data) then .ok .tcx
    else .ok .unvalidated

/-- A three-page server for the pagination loop: `u0` serves the items `a`
with a next link to `u1`, `u1` serves `b` with a next link to `u2`, and any
other url serves `c` with no next link; every page is a 200. -/
def fetch3 {I P : Type} (a b c : List I) (u0 u1 : PyStr) :
    PyStr → Option P → PageResponse I :=
  fun u _ =>
    if u = u0 then { status_code := 200, embedded := a, next := some u1 }
    else if u = u1 then { status_code := 200, embedded := b, next := some "u2".data }
    else { status_code := 200, embedded := c, next := none }

/-- The freshly created config of a first run: all three keys `null`. -/
def cfgEmpty : Config :=
  { auth_code := none, user_access_token := none, personal_access_token := none }

/-- A config holding an unexpired authorisation code and nothing else. -/
def cfgWithCode : Config :=
  { auth_code := some { params := [("code".data, "abc".data), ("state".data, "xyz".data)],
                        expires_on := 2000 }
    user_access_token := none
    personal_access_token := none }

/-- A 200 response of the token endpoint that includes a refresh token. -/
def respOk : TokenResponse :=
  { status_code := 200, access_token := "acc".data,
    refresh_token := some "ref".data, expires_in := 3600 }

/-- A config holding a user access token that expires at time 1000. -/
def cfgWithToken : Config :=
  { auth_code := none
    user_access_token := some { access_token := "tok".data,
                                refresh_token := some "old-refresh".data,
                                expires_on := 1000 }
    personal_access_token := none }

/-- A 200 refresh response in which the server issued a new refresh token. -/
def respNewRefresh : TokenResponse :=
  { status_code := 200, access_token := "new-acc".data,
    refresh_token := some "new-refresh".data, expires_in := 3600 }

/-- A 400 response of the token endpoint. -/
def respBad : TokenResponse :=
  { status_code := 400, access_token := [], refresh_token := none, expires_in := 0 }

/-- A config holding only a personal access token. -/
def cfgPAT : Config :=
  { auth_code := none, user_access_token := none,
    personal_access_token := some "pat".data }

/-! ## Theorems -/

/-- Claim C1, counterexample: a successful (HTTP 200) non-refresh token
exchange does not clear the stored authorization code — at this concrete
config the exchange succeeds and the persisted config still holds the code. -/
theorem request_user_access_token_clears_auth_code_cex :
    (request_user_access_token false cfgWithCode 1000 false respOk).1 = .ok () ∧
    (request_user_access_token false cfgWithCode 1000 false respOk).2.auth_code ≠ none ∧
    (request_user_access_token false cfgWithCode 1000 false respOk).2.auth_code
      = cfgWithCode.auth_code := by decide

/-- Claim C1, amended: `request_user_access_token` never touches the stored
authorization code — on every input, also a successful non-refresh exchange,
the persisted config's `auth_code` equals the one it started with, so the
code is not marked consumed and only its own expiry limits re-exchange. -/
theorem request_user_access_token_preserves_auth_code (withPAT : Bool)
    (cfg : Config) (now : Int) (refresh : Bool) (resp : TokenResponse) :
    (request_user_access_token withPAT cfg now refresh resp).2.auth_code
      = cfg.auth_code := by
  unfold request_user_access_token token_exchange_result
  repeat' split
  all_goals rfl

/-- Claim C2, counterexample: at `now = expires_on = 1000` we have
`now ≥ expires_on - renewal_buffer`, so the claim requires the check to be
false, but `is_user_access_token_valid` returns true (the code compares
`expires_on > now - RENEWAL_BUFFER`, extending validity past expiry). -/
theorem is_user_access_token_valid_early_invalidation_cex :
    (1000 : Int) ≥ 1000 - RENEWAL_BUFFER ∧
    is_user_access_token_valid false cfgWithToken 1000 = .ok true ∧
    is_user_access_token_valid false cfgWithToken 1000 ≠ .ok false := by decide

/-- Claim C2, amended: when a user access token is stored,
`is_user_access_token_valid` returns true exactly when
`now < expires_on + renewal_buffer` — the token is treated as valid until
`renewal_buffer` (60s) after its expiry, not invalidated 60s before it. -/
theorem is_user_access_token_valid_iff (cfg : Config) (t : UserAccessToken)
    (now : Int) (h : cfg.user_access_token = some t) :
    is_user_access_token_valid false cfg now = .ok true ↔
      now < t.expires_on + RENEWAL_BUFFER := by
  simp only [is_user_access_token_valid, h, if_false, Bool.false_eq_true]
  split
  · simp only [true_iff]
    omega
  · simp only [Except.ok.injEq, Bool.false_eq_true, false_iff, not_lt]
    omega

/-- Witness for the amended claim C2 at a concrete input. -/
theorem is_user_access_token_valid_iff_witness :
    is_user_access_token_valid false cfgWithToken 1039 = .ok true :=
  (is_user_access_token_valid_iff cfgWithToken _ 1039 rfl).mpr (by decide)

/-- Claim C3, counterexample: on a successful refresh the server issued the
new refresh token `"new-refresh"`, but the token persisted keeps the
previously stored `"old-refresh"` — the server-issued value is discarded. -/
theorem refresh_persists_new_refresh_token_cex :
    respNewRefresh.refresh_token = some "new-refresh".data ∧
    ((request_user_access_token false cfgWithToken 0 true respNewRefresh).2.user_access_token).map
        (fun u => u.refresh_token) = some (some "old-refresh".data) := by decide

/-- Claim C3, amended: on every successful refresh exchange the persisted
token's refresh token is the previously stored one, whether or not the server
issued a new refresh token in its response. -/
theorem refresh_keeps_stored_refresh_token (cfg : Config) (t : UserAccessToken)
    (rt : PyStr) (now : Int) (resp : TokenResponse)
    (ht : cfg.user_access_token = some t) (hrt : t.refresh_token = some rt)
    (h200 : resp.status_code = 200) :
    ((request_user_access_token false cfg now true resp).2.user_access_token).map
      (fun u => u.refresh_token) = some (some rt) := by
  simp [request_user_access_token, token_exchange_result, ht, hrt, h200]

/-- Witness for the amended claim C3 at a concrete input. -/
theorem refresh_keeps_stored_refresh_token_witness :
    ((request_user_access_token false cfgWithToken 0 true respNewRefresh).2.user_access_token).map
      (fun u => u.refresh_token) = some (some "old-refresh".data) :=
  refresh_keeps_stored_refresh_token cfgWithToken _ "old-refresh".data 0
    respNewRefresh rfl rfl rfl

/-- Claim C4: over a three-page chain of 200 responses the pagination loop
returns the concatenation of the pages' embedded collections in page order,
stops exactly at the page with no next link (fuel 10 is not exhausted), and
after the first next link every request carries `params = None` — the ghost
request trace is `[(u0, some p), (u1, none), (u2, none)]`. -/
theorem list_endpoint_pagination (I P : Type) (a b c : List I)
    (u1 : PyStr) (p : P) (cfg : Config) (now : Int)
    (hpat : truthyStr cfg.personal_access_token = true)
    (h1 : u1 ≠ "u0".data) (h2 : u1 ≠ "u2".data) :
    list_endpoint false cfg now (fetch3 a b c "u0".data u1) 10 "u0".data p =
      some (.ok (a ++ b ++ c),
        [("u0".data, some p), (u1, (none : Option P)), ("u2".data, none)]) := by
  simp [list_endpoint, hpat, list_endpoint_loop, fetch3, h1, h2, Ne.symm h1, Ne.symm h2]

/-- Witness for claim C4 at a concrete input: three pages of two items each
yield the six items in page order. -/
theorem list_endpoint_pagination_witness :
    list_endpoint false cfgPAT 0
        (fetch3 [1, 2] [3, 4] [5, 6] "u0".data "u1".data) 10 "u0".data (7 : Nat) =
      some (.ok ([1, 2] ++ [3, 4] ++ [5, 6]),
        [("u0".data, some 7), ("u1".data, (none : Option Nat)), ("u2".data, none)]) :=
  list_endpoint_pagination Nat Nat [1, 2] [3, 4] [5, 6] "u1".data 7 cfgPAT 0
    (by decide) (by decide) (by decide)

/-- Claim C5: when the callback parameters contain a `code` but their `state`
differs from the generated one, `request_auth_code` raises the state-mismatch
`APIException` and the config — in particular the stored authorization
code — is left unchanged; the method makes no token request. -/
theorem request_auth_code_state_mismatch (cfg : Config) (now : Int)
    (user_uuid st : PyStr) (params : List (PyStr × PyStr))
    (hcode : hasKey params "code".data = true)
    (hstate : lookupKey params "state".data = some st)
    (hne : st ≠ user_uuid) :
    request_auth_code false cfg now user_uuid params =
      (.error (.apiException "Authorisation failed! Returned state does not match supplied state."),
       cfg) := by
  simp [request_auth_code, hcode, hstate, hne]

/-- Witness for claim C5 at a concrete input. -/
theorem request_auth_code_state_mismatch_witness :
    request_auth_code false cfgEmpty 0 "S1".data
        [("code".data, "abc".data), ("state".data, "S2".data)] =
      (.error (.apiException "Authorisation failed! Returned state does not match supplied state."),
       cfgEmpty) :=
  request_auth_code_state_mismatch cfgEmpty 0 "S1".data "S2".data
    [("code".data, "abc".data), ("state".data, "S2".data)]
    (by decide) (by decide) (by decide)

/-- Claim C6: on every non-200 token endpoint response,
`request_user_access_token` raises (an `APIException` carrying the
status-table description, or a `KeyError` for a status outside the table)
and the persisted config is exactly the one it started with — the previously
stored user access token is never overwritten. -/
theorem request_user_access_token_non200_preserves_config (withPAT : Bool)
    (cfg : Config) (now : Int) (refresh : Bool) (resp : TokenResponse)
    (h : resp.status_code ≠ 200) :
    ∃ e, request_user_access_token withPAT cfg now refresh resp = (.error e, cfg) := by
  have aux : ∀ r drt, ∃ e, token_exchange_result cfg now r drt resp = (.error e, cfg) := by
    intro r drt
    unfold token_exchange_result
    rw [if_neg h]
    cases errorDescription resp.status_code
    · exact ⟨_, rfl⟩
    · exact ⟨_, rfl⟩
  unfold request_user_access_token
  repeat' split
  any_goals exact ⟨_, rfl⟩
  all_goals exact aux _ _

/-- Witness for claim C6 at a concrete input: a 400 exchange fails and leaves
the config (holding a stored token) unchanged. -/
theorem request_user_access_token_non200_preserves_config_witness :
    ∃ e, request_user_access_token false cfgWithToken 0 true respBad =
      (.error e, cfgWithToken) :=
  request_user_access_token_non200_preserves_config false cfgWithToken 0 true
    respBad (by decide)

/-- Claim C7, evaluation at the failing inputs: a buffer beginning `<?xml` is
not routed to TCX (the bytes-to-str comparison is never true) and a buffer
that is neither FIT nor XML raises nothing (the `APIException` is constructed
but not raised) — both proceed unvalidated; only the `.FIT` route works. -/
theorem activity_upload_sniff_xml_not_rejected :
    activity_upload_sniff ("<?xml versio".data.map Char.toNat) = .ok .unvalidated ∧
    activity_upload_sniff ("AAAAAAAAAAAA".data.map Char.toNat) = .ok .unvalidated ∧
    activity_upload_sniff ("12345678.FIT".data.map Char.toNat) = .ok .fit := by decide

/-- Claim C8, evaluation at the failing input: for the invalid sport type
`"rowing"` none of the three sport-type checks raises — each constructs its
`APIException` and discards it — and the invalid value proceeds into the
`sportType` request parameter of the remote call. -/
theorem sport_type_check_never_raises :
    sportTypeIn (some "rowing".data) = false ∧
    planned_training_list_sport_check (some "rowing".data) =
      { raised := none, sportTypeSent := some "rowing".data } ∧
    capacity_download_sport_check (some "rowing".data) =
      { raised := none, sportTypeSent := some "rowing".data } ∧
    zones_download_sport_check (some "rowing".data) =
      { raised := none, sportTypeSent := some "rowing".data } := by decide

/-- Claim C9, counterexample: `_params_from_path` does not split a pair on
the first `=` only — on `"/?a=b=c"` the claim's reading would give
`{a: "b=c"}`, but the code splits at every `=` and `dict` then raises
`ValueError` on the resulting 3-tuple. -/
theorem params_from_path_split_first_eq_cex :
    params_from_path "/?a=b=c".data = .error .valueError ∧
    params_from_path "/?a=b=c".data ≠ .ok [("a".data, "b=c".data)] := by decide

/-- Claim C9, amended: `_params_from_path` splits the query into flat
key/value pairs splitting at every `=` (a piece with more or fewer than one
`=` makes `dict` raise `ValueError`) and does not URL-decode values; in
particular `"/?code=abc&state=xyz"` parses to `{code: abc, state: xyz}`,
`"/?error=denied"` parses to `{error: denied}`, and an encoded value such as
`a%20b` is kept verbatim. -/
theorem params_from_path_behaviour :
    params_from_path "/?code=abc&state=xyz".data =
      .ok [("code".data, "abc".data), ("state".data, "xyz".data)] ∧
    params_from_path "/?error=denied".data = .ok [("error".data, "denied".data)] ∧
    params_from_path "/?code=a%20b&state=s".data =
      .ok [("code".data, "a%20b".data), ("state".data, "s".data)] ∧
    params_from_path "/?a=b=c".data = .error .valueError := by decide

/-- Claim C10: in application mode (`with_personal_access_token = False`),
whenever the config's `personal_access_token` is falsy (absent or empty),
`is_authorised` returns false for every config state — even with an
authorization code and a user access token present — because the check
requires the `personal_access_token` field to be truthy. -/
theorem is_authorised_requires_personal_access_token (cfg : Config)
    (h : truthyStr cfg.personal_access_token = false) :
    is_authorised false cfg = .ok false := by
  simp [is_authorised, h]

/-- Witness for claim C10 at a concrete input: auth code and user access
token both present, `personal_access_token` null. -/
theorem is_authorised_requires_personal_access_token_witness :
    is_authorised false
      { auth_code := some { params := [("code".data, "abc".data)], expires_on := 2000 }
        user_access_token := some { access_token := "tok".data,
                                    refresh_token := none, expires_on := 2000 }
        personal_access_token := none } = .ok false :=
  is_authorised_requires_personal_access_token _ (by decide)

end Tredict
